import Mathlib

/-!
Verification development for the job-application automation scripts
(`bulk_email.py`, `send_email.py`, `unravel.py`).

The Python sources are embedded shallowly: cells of the spreadsheet are
`Option String` (a `none` cell is Python `None`, a `some s` cell is the
`str()` rendering of the cell value), regular-expression searches are
implemented as executable functions on `List Char` following the exact
patterns in the source, and the two CLI drivers are modelled as pure
functions from an environment (secrets present or absent, per-URL fetch
outcomes, the confirmation answer given by the operator, per-send outcomes) to the
observable trace of the run (network/SMTP events, exit code, error messages).
-/

namespace Unravel

/-! ### Python string primitives (ASCII model) -/

/-- ASCII model of the Python `\s` class / `str.strip` whitespace set. -/
def isPySpace (c : Char) : Bool :=
  c = ' ' || c = '\t' || c = '\n' || c = '\x0d' || c = '\x0b' || c = '\x0c'

/-- Python `str.strip()` on a character list: drop whitespace from both ends. -/
def pyStrip (cs : List Char) : List Char :=
  ((cs.dropWhile isPySpace).reverse.dropWhile isPySpace).reverse

/-- Python `str.strip()` on a string. -/
def pyStripS (s : String) : String :=
  String.mk (pyStrip s.data)

/-- Python `str.strip().lower()` as applied to the confirmation answer. -/
def pyStripLower (s : String) : String :=
  String.mk ((pyStrip s.data).map Char.toLower)

/-- Python `str.isdigit()` (ASCII model): nonempty and all digits. -/
def pyIsDigit (s : String) : Bool :=
  !s.isEmpty && s.data.all Char.isDigit

/-- Python truthiness of an optional cell string (`None` and `""` are falsy). -/
def pyTruthy (v : Option String) : Bool :=
  match v with
  | none => false
  | some s => !s.isEmpty

/-- The ubiquitous source idiom `str(values[i]).strip() if values[i] else d`. -/
def cellOr (v : Option String) (d : String) : String :=
  match v with
  | none => d
  | some s => if s.isEmpty then d else pyStripS s

/-! ### `extract_email` (bulk_email.py lines 70-87)

The source applies two `re.search` patterns in order:
`mailto:([^\s",]+)` and then `[\w.+-]+@[\w.-]+\.\w+`.
Both are implemented below with the Python leftmost / greedy-with-backtracking
semantics for these specific patterns. -/

/-- ASCII model of the regex class `\w`. -/
def isWordChar (c : Char) : Bool :=
  c.isAlpha || c.isDigit || c = '_'

/-- The class `[\w.+-]` (local part of the generic email pattern). -/
def isLocalChar (c : Char) : Bool :=
  isWordChar c || c = '.' || c = '+' || c = '-'

/-- The class `[\w.-]` (domain part of the generic email pattern). -/
def isDomainChar (c : Char) : Bool :=
  isWordChar c || c = '.' || c = '-'

/-- The class `[^\s",]` used by the capture group of the mailto pattern. -/
def isMailtoChar (c : Char) : Bool :=
  !(isPySpace c || c = '"' || c = ',')

/-- Try to match `mailto:([^\s",]+)` anchored at the head of `cs`;
returns the capture group. -/
def matchMailtoAt (cs : List Char) : Option (List Char) :=
  match cs with
  | 'm' :: 'a' :: 'i' :: 'l' :: 't' :: 'o' :: ':' :: rest =>
      let g := rest.takeWhile isMailtoChar
      if g.isEmpty then none else some g
  | _ => none

/-- Leftmost search for the mailto pattern (`re.search` semantics). -/
def searchMailto : List Char → Option (List Char)
  | [] => none
  | c :: cs =>
      match matchMailtoAt (c :: cs) with
      | some g => some g
      | none => searchMailto cs

/-- Greedy-with-backtracking match of `[\w.-]+\.\w+` against the maximal
domain-character run `run` sitting right after the `@`.  The engine takes the
largest split point `p` with `run[p] = '.'`, at least one domain character
before it, and a word character right after it; the trailing `\w+` then
extends maximally. -/
def domainMatch (run : List Char) : Option (List Char) :=
  let cand := (List.range run.length).filter fun p =>
    decide (1 ≤ p) && (run.getD p 'x') = '.' && isWordChar (run.getD (p + 1) ' ')
  match cand.getLast? with
  | none => none
  | some p => some (run.take p ++ '.' :: (run.drop (p + 1)).takeWhile isWordChar)

/-- Try to match `[\w.+-]+@[\w.-]+\.\w+` anchored at the head of `cs`.
`[\w.+-]+` is greedy and `@` is not in the class, so only the maximal local
run can precede the `@`. -/
def matchEmailAt (cs : List Char) : Option (List Char) :=
  match cs.takeWhile isLocalChar, cs.dropWhile isLocalChar with
  | [], _ => none
  | lcl, '@' :: rest =>
      let run := rest.takeWhile isDomainChar
      (domainMatch run).map fun d => lcl ++ '@' :: d
  | _, _ => none

/-- Leftmost search for the generic email pattern (`re.search` semantics). -/
def searchEmail : List Char → Option (List Char)
  | [] => none
  | c :: cs =>
      match matchEmailAt (c :: cs) with
      | some m => some m
      | none => searchEmail cs

/-- Function `extract_email` (bulk_email.py lines 70-87): `if not raw: return None`,
then strip, then the mailto pattern, then the generic pattern; the matched
address is returned `.strip().lower()`-ed. -/
def extract_email (raw : String) : Option String :=
  if raw.isEmpty then none
  else
    match searchMailto (pyStrip raw.data) with
    | some g => some (String.mk ((pyStrip g).map Char.toLower))
    | none =>
        match searchEmail (pyStrip raw.data) with
        | some m => some (String.mk ((pyStrip m).map Char.toLower))
        | none => none

/-! ### Contacts and the three extraction strategies

A spreadsheet row is a `List (Option String)`: openpyxl pads every row to the
width of the sheet with `None`, which we model by reading cells with `getD _ none`.
Each `read_contacts*` function of the source checks for the spreadsheet file
and then folds its per-row logic over the data rows; the per-row logic is
embedded below and the drivers apply it to the row list of the environment. -/

/-- A normalized contact record (the dict appended by every strategy). -/
structure Contact where
  company : String
  name : String
  email : String
deriving DecidableEq

/-- The source idiom `str(v).strip() if v else None` (a possibly missing
name cell). -/
def nameCell (v : Option String) : Option String :=
  match v with
  | none => none
  | some s => if s.isEmpty then none else some (pyStripS s)

/-- The source idiom `extract_email(str(v)) if v else None` (a possibly
missing email cell). -/
def emailCell (v : Option String) : Option String :=
  match v with
  | none => none
  | some s => if s.isEmpty then none else extract_email s

/-- Per-row logic of `read_contacts` (bulk_email.py lines 100-112):
company from column 0, name from column 1, email candidate from column 4;
the row is kept only if an email is extracted. -/
def read_contacts_row (values : List (Option String)) : List Contact :=
  match emailCell (values.getD 4 none) with
  | some e => [⟨cellOr (values.getD 0 none) "your company",
               cellOr (values.getD 1 none) "Hiring Manager", e⟩]
  | none => []

/-- The idiom `email = extract_email(str(val).strip())` applied to one cell of the
scan-and-pair strategy (skipping `None` cells). -/
def cellEmail (v : Option String) : Option String :=
  match v with
  | none => none
  | some s => extract_email (pyStripS s)

/-- Python `c in s` membership test for a single character. -/
def pyInStr (c : Char) (s : String) : Bool :=
  s.data.any fun x => x = c

/-- The candidate-name test of `read_contacts_sheet2` (bulk_email.py line 187):
not purely numeric, no '/', length > 2, no '@'. -/
def isCandidateName (s : String) : Bool :=
  !pyIsDigit s && !pyInStr '/' s && decide (2 < s.length) && !pyInStr '@' s

/-- Python `last_name or "Hiring Manager"` (line 183). -/
def pyOrStr (v : Option String) (d : String) : String :=
  match v with
  | none => d
  | some s => if s.isEmpty then d else s

/-- The cell scan of `read_contacts_sheet2` (bulk_email.py lines 174-190):
walk the cells from column 2 on, tracking the most recent candidate name;
a cell that extracts an email emits a Contact (placeholder name if none is
pending) and clears the pending name; otherwise the first qualifying cell
after a reset becomes the pending name. -/
def sheet2Scan (company : String) : Option String → List (Option String) → List Contact
  | _, [] => []
  | last, none :: rest => sheet2Scan company last rest
  | last, some v :: rest =>
      let s := pyStripS v
      match extract_email s with
      | some e => ⟨company, pyOrStr last "Hiring Manager", e⟩ :: sheet2Scan company none rest
      | none =>
          if isCandidateName s then
            match last with
            | none => sheet2Scan company (some s) rest
            | some l => sheet2Scan company (some l) rest
          else sheet2Scan company last rest

/-- Per-row logic of `read_contacts_sheet2` (bulk_email.py lines 168-190):
company from column 1, then scan the cells from column 2 onward. -/
def read_contacts_sheet2_row (values : List (Option String)) : List Contact :=
  sheet2Scan (cellOr (values.getD 1 none) "your company") none (values.drop 2)

/-- The group logic of `read_contacts_sheet4` (bulk_email.py lines 137-148):
the `while i + 2 < len(values)` loop with `i += 3` consumes the cell list
after the company column in triplets (name, phone, email candidate); a group
is emitted only `if name and email`. -/
def sheet4Scan (company : String) : List (Option String) → List Contact
  | nv :: _pv :: ev :: rest =>
      (match nameCell nv, emailCell ev with
       | some n, some e => if n.isEmpty then [] else [⟨company, n, e⟩]
       | _, _ => []) ++ sheet4Scan company rest
  | _ => []

/-- Per-row logic of `read_contacts_sheet4` (bulk_email.py lines 131-148):
company from column 0, repeating (name, phone, email) triplets from column 1. -/
def read_contacts_sheet4_row (values : List (Option String)) : List Contact :=
  sheet4Scan (cellOr (values.getD 0 none) "your company") (values.drop 1)

/-- The complete (name, phone, email) triplets of a cell list, in order:
the groups visited by the `while i + 2 < len(values)` loop. -/
def chunks3 : List (Option String) → List (Option String × Option String × Option String)
  | nv :: pv :: ev :: rest => (nv, pv, ev) :: chunks3 rest
  | _ => []

/-- The Contact one triplet contributes (`if name and email` in the source):
both a non-empty name and an extracted email are required. -/
def groupContact (company : String)
    (g : Option String × Option String × Option String) : Option Contact :=
  match nameCell g.1, emailCell g.2.2 with
  | some n, some e => if n.isEmpty then none else some ⟨company, n, e⟩
  | _, _ => none

/-! ### The bulk sender (`send_cold_email` and the send loop of `main`) -/

/-- Delay between emails in seconds (bulk_email.py line 32). -/
def DELAY_BETWEEN_EMAILS : Nat := 3

/-- Function `send_cold_email` (bulk_email.py lines 199-225): the whole body sits in a
`try` block; a successful `send_message` returns `True`, any exception is
caught, printed to stderr, and reported as `False`.  The effect of the body is
modelled by its outcome (`Except.error` = some exception was raised). -/
def send_cold_email (result : Except String Unit) : Bool :=
  match result with
  | .ok _ => true
  | .error _ => false

/-- Observable events of a bulk run. -/
inductive BEv where
  | smtpConnect
  | attempt (email : String) (ok : Bool)
  | sleep (secs : Nat)
deriving DecidableEq

/-- The send loop of `main` (bulk_email.py lines 319-329):
`for i, contact in enumerate(contacts, 1)`, send, bump the matching counter,
and `time.sleep` only when `i < len(contacts)`.  Returns the event list and
the final `(sent, failed)` counters; `ok i` is the outcome of the i-th send
(1-based). -/
def sendLoop (ok : Nat → Bool) (total : Nat) : Nat → List Contact → List BEv × Nat × Nat
  | _, [] => ([], 0, 0)
  | i, c :: rest =>
      let r := sendLoop ok total (i + 1) rest
      (BEv.attempt c.email (ok i) ::
        ((if i < total then [BEv.sleep DELAY_BETWEEN_EMAILS] else []) ++ r.1),
       (if ok i then r.2.1 + 1 else r.2.1),
       (if ok i then r.2.2 else r.2.2 + 1))

/-- The recipient emails attempted, in order. -/
def attemptsOf (evs : List BEv) : List String :=
  evs.filterMap fun e =>
    match e with
    | .attempt em _ => some em
    | _ => none

/-- Whether an event is a sleep. -/
def isSleepEv (e : BEv) : Bool :=
  match e with
  | .sleep _ => true
  | _ => false

/-- Whether an event is a send attempt. -/
def isAttemptEv (e : BEv) : Bool :=
  match e with
  | .attempt _ _ => true
  | _ => false

/-- Number of sleeps in an event list. -/
def sleepCount (evs : List BEv) : Nat :=
  (evs.filter isSleepEv).length

/-- Number of successful send attempts in an event list. -/
def sentCount (evs : List BEv) : Nat :=
  (evs.filter fun e =>
    match e with
    | .attempt _ ok => ok
    | _ => false).length

/-- Number of failed send attempts in an event list. -/
def failCount (evs : List BEv) : Nat :=
  (evs.filter fun e =>
    match e with
    | .attempt _ ok => !ok
    | _ => false).length

/-! ### The bulk CLI driver (`main` of bulk_email.py, lines 232-331) -/

/-- Environment of one bulk run: process arguments, secrets, files, the
worksheet at index 4 (its data rows, `min_row=2`), the
confirmation answer of the operator, whether STARTTLS/login succeeds, and the outcome of the
i-th send (1-based; in test mode only index 1 is used). -/
structure BEnv where
  argv : List String
  appPassword : Option String
  resumeExists : Bool
  excelExists : Bool
  rows : List (List (Option String))
  confirmAnswer : String
  loginOk : Bool
  sendOk : Nat → Bool

/-- Observable result of one bulk run: event trace, process exit code, and
messages printed to stderr. -/
structure BRun where
  events : List BEv
  exitCode : Nat
  errs : List String
deriving DecidableEq

/-- Assignment `test_mode = "--test" in sys.argv` (bulk_email.py line 243). -/
def test_mode_flag (argv : List String) : Bool :=
  argv.contains "--test"

/-- Assignment `use_sheet4 = "--sheet4" in sys.argv` (bulk_email.py line 244).
The variable is assigned in `main` and never read again. -/
def use_sheet4 (argv : List String) : Bool :=
  argv.contains "--sheet4"

/-- Which extractor the full-mode branch of `main` invokes
(bulk_email.py line 288): the source unconditionally calls
`read_contacts_sheet2(sheet_index=4)`; `use_sheet4` is not consulted. -/
inductive ExtractorChoice where
  | fixedColumn
  | repeatingTriplet
  | scanPair (sheetIndex : Nat)
deriving DecidableEq

/-- The extraction call of the full-mode bulk driver (bulk_email.py line 288),
as a function of the process arguments. -/
def fullModeExtractor (_argv : List String) : ExtractorChoice :=
  ExtractorChoice.scanPair 4

/-- Function `main` of bulk_email.py (lines 232-331).  Checks the app password and the
resume, then either the test branch (lines 259-285: prompt, connect, one send
to the operator, return regardless of the outcome) or the full branch
(lines 287-331: read Sheet index 4 via the scan-and-pair strategy, prompt,
connect, run the send loop).  An uncaught SMTP login failure terminates the
process with exit code 1. -/
def bulkMain (env : BEnv) : BRun :=
  let testMode := test_mode_flag env.argv
  match env.appPassword with
  | none => ⟨[], 1, ["Error: GMAIL_APP_PASSWORD not set in .env"]⟩
  | some _ =>
    if !env.resumeExists then ⟨[], 1, ["Error: Resume not found"]⟩
    else if testMode then
      if pyStripLower env.confirmAnswer ≠ "y" then ⟨[], 0, []⟩
      else if !env.loginOk then ⟨[BEv.smtpConnect], 1, ["SMTPAuthenticationError"]⟩
      else
        let ok := send_cold_email (if env.sendOk 1 then .ok () else .error "send failed")
        ⟨[BEv.smtpConnect, BEv.attempt "nileshcodes04@gmail.com" ok], 0,
         if ok then [] else ["Test email failed."]⟩
    else
      if !env.excelExists then ⟨[], 1, ["Error: Excel file not found"]⟩
      else
        let contacts := env.rows.flatMap read_contacts_sheet2_row
        if pyStripLower env.confirmAnswer ≠ "y" then ⟨[], 0, []⟩
        else if !env.loginOk then ⟨[BEv.smtpConnect], 1, ["SMTPAuthenticationError"]⟩
        else
          let r := sendLoop env.sendOk contacts.length 1 contacts
          ⟨BEv.smtpConnect :: r.1, 0, []⟩

/-! ### The single-recipient pipeline (unravel.py and send_email.py)

`json.loads` is an external collaborator; the LLM response is therefore
modelled post-parse: either an API error, empty content, malformed JSON, or a
parsed JSON value. -/

/-- JSON values (the possible results of `json.loads`). -/
inductive Json where
  | null
  | bool (b : Bool)
  | num (n : Int)
  | str (s : String)
  | arr (xs : List Json)
  | obj (fields : List (String × Json))

/-- Lookup `result.get(k)` on a parsed JSON object (`None` when the key is absent;
parsed objects have unique keys). -/
def Json.lookup (j : Json) (k : String) : Option Json :=
  match j with
  | .obj fields => (fields.find? fun p => p.1 = k).map fun p => p.2
  | _ => none

/-- Python truthiness of `result.get(k)`: `None`, JSON `null`, `""`, `0`,
`False`, `[]` and an empty object are all falsy. -/
def pyTruthyJson (v : Option Json) : Bool :=
  match v with
  | none => false
  | some .null => false
  | some (.bool b) => b
  | some (.num n) => n ≠ 0
  | some (.str s) => !s.isEmpty
  | some (.arr xs) => !xs.isEmpty
  | some (.obj fields) => !fields.isEmpty

/-- Outcome of the chat-completion call, as seen after the client returns. -/
inductive LLMResp where
  | apiError
  | emptyContent
  | malformed
  | parsed (j : Json)

/-- Outcome of the SMTP session in `send_application_email`. -/
inductive SmtpOutcome where
  | authError
  | smtpError
  | ok
deriving DecidableEq

/-- Observable events of a single-recipient run. -/
inductive SEv where
  | fetch (url : String) (ok : Bool)
  | llmCall
  | smtpConnect
  | sendMsg
deriving DecidableEq

/-- The fixed URL list scraped by `scrape_unravel_profiles`
(unravel.py lines 19-23). -/
def UNRAVEL_URLS : List String :=
  ["https://unravel.tech", "https://unravel.tech/blog", "https://unravel.tech/talks"]

/-- Environment of one single-recipient run. -/
structure SEnv where
  groqKey : Option String
  gmailPass : Option String
  resumeExists : Bool
  fetchOk : String → Bool
  llm : LLMResp
  confirmAnswer : String
  smtp : SmtpOutcome

/-- Observable result of one single-recipient run. -/
structure SRun where
  events : List SEv
  exitCode : Nat
  errs : List String

/-- Function `scrape_unravel_profiles` (unravel.py lines 26-52): every URL is fetched
(failures are logged and skipped); if no page succeeded the run is fatal. -/
def scrape_unravel_profiles (fetchOk : String → Bool) : List SEv × Except String Unit :=
  (UNRAVEL_URLS.map fun u => SEv.fetch u (fetchOk u),
   if UNRAVEL_URLS.any fetchOk then .ok ()
   else .error "Error: Could not fetch any content from unravel.tech")

/-- Function `extract_founder_info` (unravel.py lines 92-139): missing API key is fatal
before the call; an API error, empty content, or unparseable content after
the call is fatal; otherwise the parsed JSON is returned to the caller. -/
def extract_founder_info (groqKey : Option String) (llm : LLMResp) :
    List SEv × Except String Json :=
  match groqKey with
  | none => ([], .error "Error: GROQ_API_KEY environment variable is not set.")
  | some _ =>
    match llm with
    | .apiError => ([SEv.llmCall], .error "Groq API error")
    | .emptyContent => ([SEv.llmCall], .error "Error: LLM returned an empty response.")
    | .malformed => ([SEv.llmCall], .error "Error: Failed to parse LLM response as JSON.")
    | .parsed j => ([SEv.llmCall], .ok j)

/-- Function `send_application_email` (send_email.py lines 58-112): the password and
resume checks precede the SMTP connection; authentication and SMTP errors
are fatal. -/
def send_application_email (gmailPass : Option String) (resumeExists : Bool)
    (smtp : SmtpOutcome) (_recipient : Json) : List SEv × Except String Unit :=
  match gmailPass with
  | none => ([], .error "Error: GMAIL_APP_PASSWORD environment variable is not set.")
  | some _ =>
    if !resumeExists then ([], .error "Error: Resume not found")
    else
      match smtp with
      | .authError => ([SEv.smtpConnect], .error "Error: Authentication failed.")
      | .smtpError => ([SEv.smtpConnect], .error "SMTP error")
      | .ok => ([SEv.smtpConnect, SEv.sendMsg], .ok ())

/-- Function `main` of send_email.py (lines 115-155): scrape, extract, require truthy
`founder_name` and `email`, confirm with the operator, then send.  Calling
`.get` on a non-object parse result raises an uncaught `AttributeError`
(exit code 1). -/
def sendEmailMain (env : SEnv) : SRun :=
  let scr := scrape_unravel_profiles env.fetchOk
  match scr.2 with
  | .error e => ⟨scr.1, 1, [e]⟩
  | .ok _ =>
    let ext := extract_founder_info env.groqKey env.llm
    let evs := scr.1 ++ ext.1
    match ext.2 with
    | .error e => ⟨evs, 1, [e]⟩
    | .ok j =>
      match j with
      | .obj fields =>
        let result := Json.obj fields
        let founderName := result.lookup "founder_name"
        let recipient := result.lookup "email"
        if !pyTruthyJson founderName || !pyTruthyJson recipient then
          ⟨evs, 1, ["Error: Could not extract founder info."]⟩
        else
          if pyStripLower env.confirmAnswer ≠ "y" then ⟨evs, 0, []⟩
          else
            let snd := send_application_email env.gmailPass env.resumeExists env.smtp
              (recipient.getD .null)
            match snd.2 with
            | .error e => ⟨evs ++ snd.1, 1, [e]⟩
            | .ok _ => ⟨evs ++ snd.1, 0, []⟩
      | _ => ⟨evs, 1, ["AttributeError"]⟩

/-- The parse result `{"founder_name": null, "email": null}`. -/
def nullFounder : Json :=
  Json.obj [("founder_name", Json.null), ("email", Json.null)]

/-- A single-recipient run with the LLM key absent but every fetch
succeeding. -/
def c2Env : SEnv :=
  ⟨none, some "pw", true, fun _ => true, LLMResp.apiError, "y", SmtpOutcome.ok⟩

/-- A single-recipient run whose LLM response parses to
`{"founder_name": null, "email": null}`. -/
def c8Env : SEnv :=
  ⟨some "k", some "pw", true, fun _ => true, LLMResp.parsed nullFounder, "y",
   SmtpOutcome.ok⟩

/-- A confirmed test-mode bulk run whose single send fails. -/
def c9Env : BEnv :=
  ⟨["bulk_email.py", "--test"], some "pw", true, true, [], "y", true, fun _ => false⟩

/-! ### Helper lemmas -/

/-- The scan-and-pair cell walk emits exactly one Contact per cell that
extracts an email, in order, regardless of the pending-name state. -/
theorem sheet2Scan_map_email (company : String) :
    ∀ (cells : List (Option String)) (last : Option String),
      (sheet2Scan company last cells).map Contact.email = cells.filterMap cellEmail
  | [], _ => rfl
  | none :: rest, last => by
      simpa [sheet2Scan, cellEmail] using sheet2Scan_map_email company rest last
  | some v :: rest, last => by
      simp only [sheet2Scan, List.filterMap_cons, cellEmail]
      cases h : extract_email (pyStripS v) with
      | some e =>
          simp [h, sheet2Scan_map_email company rest none]
      | none =>
          cases hc : isCandidateName (pyStripS v) with
          | true =>
              cases last <;>
                simp [h, hc, sheet2Scan_map_email company rest _]
          | false =>
              simp [h, hc, sheet2Scan_map_email company rest last]

/-- The repeating-triplet walk is the per-group `filterMap` over the complete
triplets. -/
theorem sheet4Scan_eq_filterMap (company : String) :
    ∀ cells : List (Option String),
      sheet4Scan company cells = (chunks3 cells).filterMap (groupContact company)
  | [] => rfl
  | [_] => rfl
  | [_, _] => rfl
  | nv :: pv :: ev :: rest => by
      simp only [sheet4Scan, chunks3, List.filterMap_cons, groupContact]
      cases hn : nameCell nv with
      | none => simpa using sheet4Scan_eq_filterMap company rest
      | some n =>
          cases he : emailCell ev with
          | none => simpa using sheet4Scan_eq_filterMap company rest
          | some e =>
              by_cases hne : n.isEmpty <;>
                simp [hne, sheet4Scan_eq_filterMap company rest]

/-- The third component of a complete triplet is a cell of the list. -/
theorem chunks3_mem_third :
    ∀ (l : List (Option String)) (a b c : Option String),
      (a, b, c) ∈ chunks3 l → c ∈ l
  | nv :: pv :: ev :: rest, a, b, c => by
      intro h
      rcases List.mem_cons.mp h with heq | htl
      · cases heq
        simp
      · have := chunks3_mem_third rest a b c htl
        simp [this]
  | [], _, _, _ => by intro h; simp [chunks3] at h
  | [_], _, _, _ => by intro h; simp [chunks3] at h
  | [_, _], _, _, _ => by intro h; simp [chunks3] at h

/-- An extracted email cell really went through `extract_email`. -/
theorem emailCell_some {v : Option String} {e : String} (h : emailCell v = some e) :
    ∃ s, v = some s ∧ extract_email s = some e := by
  cases v with
  | none => simp [emailCell] at h
  | some s =>
      refine ⟨s, rfl, ?_⟩
      by_cases hs : s.isEmpty
      · simp [emailCell, hs] at h
      · simpa [emailCell, hs] using h

/-- Every address returned by `extract_email` is a stripped, lower-cased
match. -/
theorem extract_email_lower {raw e : String} (h : extract_email raw = some e) :
    ∃ m, e = String.mk ((pyStrip m).map Char.toLower) := by
  by_cases hr : raw.isEmpty
  · simp [extract_email, hr] at h
  · rw [extract_email, if_neg hr] at h
    cases hm : searchMailto (pyStrip raw.data) with
    | some g =>
        rw [hm] at h
        exact ⟨g, (Option.some_injective _ h).symm⟩
    | none =>
        rw [hm] at h
        cases hg : searchEmail (pyStrip raw.data) with
        | some m =>
            rw [hg] at h
            exact ⟨m, (Option.some_injective _ h).symm⟩
        | none => rw [hg] at h; exact absurd h (by simp)

/-- The send loop attempts exactly the given contacts, in order. -/
theorem sendLoop_attempts (ok : Nat → Bool) (total : Nat) :
    ∀ (cs : List Contact) (i : Nat),
      attemptsOf (sendLoop ok total i cs).1 = cs.map Contact.email
  | [], _ => rfl
  | c :: rest, i => by
      simp only [sendLoop, attemptsOf, List.filterMap_cons, List.filterMap_append]
      by_cases hi : i < total <;>
        simpa [hi, attemptsOf] using sendLoop_attempts ok total rest (i + 1)

/-- The `sent` counter counts exactly the successful attempts in the trace. -/
theorem sendLoop_sent (ok : Nat → Bool) (total : Nat) :
    ∀ (cs : List Contact) (i : Nat),
      (sendLoop ok total i cs).2.1 = sentCount (sendLoop ok total i cs).1
  | [], _ => rfl
  | c :: rest, i => by
      simp only [sendLoop, sentCount, List.filter_cons, List.filter_append]
      by_cases hi : i < total <;> cases hok : ok i <;>
        simpa [hi, hok, sentCount] using sendLoop_sent ok total rest (i + 1)

/-- The `failed` counter counts exactly the failed attempts in the trace. -/
theorem sendLoop_failed (ok : Nat → Bool) (total : Nat) :
    ∀ (cs : List Contact) (i : Nat),
      (sendLoop ok total i cs).2.2 = failCount (sendLoop ok total i cs).1
  | [], _ => rfl
  | c :: rest, i => by
      simp only [sendLoop, failCount, List.filter_cons, List.filter_append]
      by_cases hi : i < total <;> cases hok : ok i <;>
        simpa [hi, hok, failCount] using sendLoop_failed ok total rest (i + 1)

/-- Every attempt bumps exactly one of the two counters. -/
theorem sendLoop_sum (ok : Nat → Bool) (total : Nat) :
    ∀ (cs : List Contact) (i : Nat),
      (sendLoop ok total i cs).2.1 + (sendLoop ok total i cs).2.2 = cs.length
  | [], _ => rfl
  | c :: rest, i => by
      have ih := sendLoop_sum ok total rest (i + 1)
      simp only [sendLoop, List.length_cons]
      cases hok : ok i <;> simp [hok] <;> omega

/-- With `total` set to one less than the 1-based index past the last
contact (as in the top-level call of the driver), the loop sleeps exactly once
between consecutive sends. -/
theorem sendLoop_sleeps (ok : Nat → Bool) (total : Nat) :
    ∀ (cs : List Contact) (i : Nat), i + cs.length = total + 1 →
      sleepCount (sendLoop ok total i cs).1 = cs.length - 1
  | [], _, _ => rfl
  | [c], i, h => by
      have hi : ¬i < total := by
        simp only [List.length_cons, List.length_nil] at h
        omega
      simp [sendLoop, sleepCount, isSleepEv, hi]
  | c :: d :: rest, i, h => by
      have hi : i < total := by
        simp only [List.length_cons] at h
        omega
      have ih := sendLoop_sleeps ok total (d :: rest) (i + 1) (by
        simp only [List.length_cons] at h ⊢
        omega)
      simp only [sendLoop, sleepCount, List.filter_cons, List.filter_append] at ih ⊢
      simp [hi, isSleepEv, sleepCount] at ih ⊢
      omega

/-- Under the same indexing, the trace never ends with a sleep. -/
theorem sendLoop_last (ok : Nat → Bool) (total : Nat) :
    ∀ (cs : List Contact) (i : Nat), i + cs.length = total + 1 →
      (((sendLoop ok total i cs).1.getLast?).map isAttemptEv).getD true = true
  | [], _, _ => rfl
  | [c], i, h => by
      have hi : ¬i < total := by
        simp only [List.length_cons, List.length_nil] at h
        omega
      simp [sendLoop, hi, isAttemptEv]
  | c :: d :: rest, i, h => by
      have ih := sendLoop_last ok total (d :: rest) (i + 1) (by
        simp only [List.length_cons] at h ⊢
        omega)
      have hne : (sendLoop ok total (i + 1) (d :: rest)).1 ≠ [] := by
        simp [sendLoop]
      have hstep : (sendLoop ok total i (c :: d :: rest)).1 =
          (BEv.attempt c.email (ok i) ::
            (if i < total then [BEv.sleep DELAY_BETWEEN_EMAILS] else [])) ++
            (sendLoop ok total (i + 1) (d :: rest)).1 := by
        simp [sendLoop]
      rw [hstep, List.getLast?_append_of_ne_nil _ hne]
      exact ih

/-! ### Claim theorems -/

/-- C5: email normalization first tries the mailto pattern and returns that
address lower-cased and stripped; otherwise it tries the generic email
pattern anywhere in the string; absence of both yields no match.  In
particular the HYPERLINK formula normalizes to `a@b.com`, `A@B.COM`
lower-cases to `a@b.com`, and `call me` yields no match. -/
theorem claim_C5 :
    extract_email "=HYPERLINK(\"mailto:a@b.com\",\"a@b.com\")" = some "a@b.com"
    ∧ extract_email "A@B.COM" = some "a@b.com"
    ∧ extract_email "call me" = none
    ∧ (∀ raw g, searchMailto (pyStrip raw.data) = some g →
        extract_email raw = some (String.mk ((pyStrip g).map Char.toLower)))
    ∧ (∀ raw m, searchMailto (pyStrip raw.data) = none →
        searchEmail (pyStrip raw.data) = some m →
        extract_email raw = some (String.mk ((pyStrip m).map Char.toLower)))
    ∧ (∀ raw, searchMailto (pyStrip raw.data) = none →
        searchEmail (pyStrip raw.data) = none → extract_email raw = none) := by
  refine ⟨by decide, by decide, by decide, ?_, ?_, ?_⟩
  · intro raw g hm
    by_cases hr : raw.isEmpty
    · rw [(String.isEmpty_iff raw).mp hr] at hm
      rw [show searchMailto (pyStrip "".data) = none from by decide] at hm
      simp at hm
    · rw [extract_email, if_neg hr, hm]
  · intro raw m hm hg
    by_cases hr : raw.isEmpty
    · rw [(String.isEmpty_iff raw).mp hr] at hg
      rw [show searchEmail (pyStrip "".data) = none from by decide] at hg
      simp at hg
    · rw [extract_email, if_neg hr, hm, hg]
  · intro raw hm hg
    by_cases hr : raw.isEmpty
    · rw [extract_email, if_pos hr]
    · rw [extract_email, if_neg hr, hm, hg]

/-- Witness for C5: the mailto branch applied at a concrete input. -/
theorem claim_C5_witness :
    extract_email "mailto:a@b.com" = some "a@b.com" :=
  claim_C5.2.2.2.1 "mailto:a@b.com" "a@b.com".data (by decide)

/-- C6: in the scan-and-pair strategy an email-bearing cell is paired with
the pending candidate name (placeholder if none pending) and the pending
name is then cleared; a non-email cell qualifies as a candidate name iff it
is not purely numeric, contains no '/', has length > 2, and contains no '@';
only the first qualifying cell after a reset becomes the pending name; and
the two concrete rows behave as specified. -/
theorem claim_C6 :
    read_contacts_sheet2_row [some "1", some "Acme", some "Jo Smith", some "jo@acme.com"] =
      [⟨"Acme", "Jo Smith", "jo@acme.com"⟩]
    ∧ read_contacts_sheet2_row [some "1", some "Acme", some "jo@acme.com"] =
      [⟨"Acme", "Hiring Manager", "jo@acme.com"⟩]
    ∧ (∀ company last v rest e, extract_email (pyStripS v) = some e →
        sheet2Scan company last (some v :: rest) =
          ⟨company, pyOrStr last "Hiring Manager", e⟩ :: sheet2Scan company none rest)
    ∧ (∀ company v rest, extract_email (pyStripS v) = none →
        isCandidateName (pyStripS v) = true →
        sheet2Scan company none (some v :: rest) =
          sheet2Scan company (some (pyStripS v)) rest)
    ∧ (∀ company l v rest, extract_email (pyStripS v) = none →
        sheet2Scan company (some l) (some v :: rest) = sheet2Scan company (some l) rest)
    ∧ (∀ company v rest, extract_email (pyStripS v) = none →
        isCandidateName (pyStripS v) = false →
        sheet2Scan company none (some v :: rest) = sheet2Scan company none rest)
    ∧ (∀ company last rest,
        sheet2Scan company last (none :: rest) = sheet2Scan company last rest) := by
  refine ⟨by decide, by decide, ?_, ?_, ?_, ?_, ?_⟩
  · intro company last v rest e h
    simp [sheet2Scan, h]
  · intro company v rest h hc
    simp [sheet2Scan, h, hc]
  · intro company l v rest h
    cases hc : isCandidateName (pyStripS v) <;> simp [sheet2Scan, h, hc]
  · intro company v rest h hc
    simp [sheet2Scan, h, hc]
  · intro company last rest
    simp [sheet2Scan]

/-- Witness for C6: the candidate-name conjunct applied at a concrete cell. -/
theorem claim_C6_witness :
    sheet2Scan "Acme" none [some "Jo Smith"] =
      sheet2Scan "Acme" (some (pyStripS "Jo Smith")) [] :=
  claim_C6.2.2.2.1 "Acme" "Jo Smith" [] (by decide) (by decide)

/-- C7: the repeating-triplet strategy reads the company from column 0 and
scans (name, phone, email) triplets from column 1; the emitted list is
exactly the per-group filterMap (one Contact per group having both a
non-empty name and a recognized email, sharing the company of the row), and the
concrete row yields its two contacts in order. -/
theorem claim_C7 :
    read_contacts_sheet4_row
      [some "Acme", some "Jo", some "555", some "jo@acme.com",
       some "Al", some "555", some "al@acme.com"] =
      [⟨"Acme", "Jo", "jo@acme.com"⟩, ⟨"Acme", "Al", "al@acme.com"⟩]
    ∧ (∀ values, read_contacts_sheet4_row values =
        (chunks3 (values.drop 1)).filterMap
          (groupContact (cellOr (values.getD 0 none) "your company")))
    ∧ (∀ company g c, groupContact company g = some c → c.company = company) := by
  refine ⟨by decide, ?_, ?_⟩
  · intro values
    exact sheet4Scan_eq_filterMap _ _
  · intro company g c h
    rcases g with ⟨a, b, ev⟩
    simp only [groupContact] at h
    cases hn : nameCell a with
    | none => rw [hn] at h; exact absurd h (by simp)
    | some n =>
        rw [hn] at h
        cases he : emailCell ev with
        | none => rw [he] at h; exact absurd h (by simp)
        | some em =>
            rw [he] at h
            by_cases hne : n.isEmpty <;> simp [hne] at h
            rw [← h]

/-- Witness for C7: the shared-company conjunct at a concrete group. -/
theorem claim_C7_witness :
    (⟨"Acme", "Jo", "jo@acme.com"⟩ : Contact).company = "Acme" :=
  claim_C7.2.2 "Acme" (some "Jo", some "555", some "jo@acme.com")
    ⟨"Acme", "Jo", "jo@acme.com"⟩ (by decide)

/-- C3 counterexample: in the repeating-triplet strategy a group whose email
is recognized but whose name cell is missing is rejected outright — no
placeholder is substituted, refuting the claim that a missing name never
causes rejection. -/
theorem claim_C3_counterexample :
    read_contacts_sheet4_row [some "Acme", none, some "555", some "jo@acme.com"] = []
    ∧ extract_email "jo@acme.com" = some "jo@acme.com" := by
  decide

/-- C3 (amended): in every strategy a Contact is emitted only when
`extract_email` recognized an address in a cell of that row, and the stored
email is the stripped, lower-cased match; missing name/company fall back to
placeholders in the fixed-column and scan-and-pair strategies (the
repeating-triplet strategy instead skips a group with a missing name). -/
theorem claim_C3 :
    (∀ values c, c ∈ read_contacts_row values →
      ∃ s, values.getD 4 none = some s ∧ extract_email s = some c.email)
    ∧ (∀ values, (read_contacts_sheet2_row values).map Contact.email =
        (values.drop 2).filterMap cellEmail)
    ∧ (∀ values c, c ∈ read_contacts_sheet4_row values →
        ∃ s, some s ∈ values ∧ extract_email s = some c.email)
    ∧ (∀ raw e, extract_email raw = some e →
        ∃ m, e = String.mk ((pyStrip m).map Char.toLower))
    ∧ (∀ v0 v2 v3 s e, extract_email s = some e →
        read_contacts_row [v0, none, v2, v3, some s] =
          [⟨cellOr v0 "your company", "Hiring Manager", e⟩]) := by
  refine ⟨?_, ?_, ?_, ?_, ?_⟩
  · intro values c h
    cases he : emailCell (values.getD 4 none) with
    | none =>
        rw [read_contacts_row, he] at h
        exact absurd h (by simp)
    | some e =>
        rw [read_contacts_row, he] at h
        simp only [List.mem_singleton] at h
        obtain ⟨s, hv, hx⟩ := emailCell_some he
        exact ⟨s, hv, by rw [h, hx]⟩
  · intro values
    exact sheet2Scan_map_email _ _ _
  · intro values c h
    rw [read_contacts_sheet4_row, sheet4Scan_eq_filterMap] at h
    obtain ⟨⟨a, b, ev⟩, hg, hgc⟩ := List.mem_filterMap.mp h
    simp only [groupContact] at hgc
    cases hn : nameCell a with
    | none => rw [hn] at hgc; exact absurd hgc (by simp)
    | some n =>
        rw [hn] at hgc
        cases he : emailCell ev with
        | none => rw [he] at hgc; exact absurd hgc (by simp)
        | some em =>
            rw [he] at hgc
            by_cases hne : n.isEmpty <;> simp [hne] at hgc
            obtain ⟨s, hv, hx⟩ := emailCell_some he
            refine ⟨s, ?_, by rw [← hgc, hx]⟩
            exact List.drop_subset 1 values (hv ▸ chunks3_mem_third _ _ _ _ hg)
  · intro raw e h
    exact extract_email_lower h
  · intro v0 v2 v3 s e he
    have hs : ¬s.isEmpty := by
      intro hs
      rw [extract_email, if_pos hs] at he
      exact absurd he (by simp)
    simp [read_contacts_row, emailCell, hs, he, cellOr]

/-- Witness for C3: the placeholder conjunct at a concrete row. -/
theorem claim_C3_witness :
    read_contacts_row [none, none, none, none, some "a@b.com"] =
      [⟨"your company", "Hiring Manager", "a@b.com"⟩] :=
  claim_C3.2.2.2.2 none none none "a@b.com" "a@b.com" (by decide)

/-- C4: an exception inside a single send is caught and reported as a
failure (the session survives by totality of the handler); the loop visits
the contacts in list order, sleeps exactly between consecutive sends and
never after the last event, and in the 3-contact scenario where only the
2nd send throws the final counters are sent=2 and failed=1 with the 3rd
contact still attempted. -/
theorem claim_C4 :
    (∀ e, send_cold_email (Except.error e) = false)
    ∧ send_cold_email (Except.ok ()) = true
    ∧ (∀ ok (cs : List Contact),
        attemptsOf (sendLoop ok cs.length 1 cs).1 = cs.map Contact.email)
    ∧ (∀ ok (cs : List Contact),
        sleepCount (sendLoop ok cs.length 1 cs).1 = cs.length - 1)
    ∧ (∀ ok (cs : List Contact),
        (((sendLoop ok cs.length 1 cs).1.getLast?).map isAttemptEv).getD true = true)
    ∧ sendLoop
        (fun i => send_cold_email (if i = 2 then Except.error "boom" else Except.ok ())) 3 1
        [⟨"Acme", "N1", "e1"⟩, ⟨"Acme", "N2", "e2"⟩, ⟨"Acme", "N3", "e3"⟩] =
        ([BEv.attempt "e1" true, BEv.sleep 3, BEv.attempt "e2" false,
          BEv.sleep 3, BEv.attempt "e3" true], 2, 1) := by
  refine ⟨fun e => rfl, rfl, ?_, ?_, ?_, by decide⟩
  · intro ok cs
    exact sendLoop_attempts ok cs.length cs 1
  · intro ok cs
    exact sendLoop_sleeps ok cs.length cs 1 (by omega)
  · intro ok cs
    exact sendLoop_last ok cs.length cs 1 (by omega)

/-- C10: after the loop completes, every contact has been attempted exactly
once (the attempted recipients are the contact list in order), the counters
count exactly the successful and the failed attempts, and they sum to the
number of contacts. -/
theorem claim_C10 :
    ∀ ok (cs : List Contact),
      attemptsOf (sendLoop ok cs.length 1 cs).1 = cs.map Contact.email
      ∧ (sendLoop ok cs.length 1 cs).2.1 = sentCount (sendLoop ok cs.length 1 cs).1
      ∧ (sendLoop ok cs.length 1 cs).2.2 = failCount (sendLoop ok cs.length 1 cs).1
      ∧ (sendLoop ok cs.length 1 cs).2.1 + (sendLoop ok cs.length 1 cs).2.2 = cs.length := by
  intro ok cs
  exact ⟨sendLoop_attempts ok cs.length cs 1, sendLoop_sent ok cs.length cs 1,
    sendLoop_failed ok cs.length cs 1, sendLoop_sum ok cs.length cs 1⟩

/-- C1 (code bug): the full-mode bulk driver ignores the `--sheet4` flag
entirely — `use_sheet4` is computed from the arguments (line 244) but the
driver unconditionally invokes the scan-and-pair extractor on sheet index 4
(line 288), contradicting the usage text in the docstring of `main`; the whole
run is insensitive to adding `--sheet4`. -/
theorem claim_C1 :
    use_sheet4 ["bulk_email.py", "--sheet4"] = true
    ∧ fullModeExtractor ["bulk_email.py", "--sheet4"] = ExtractorChoice.scanPair 4
    ∧ fullModeExtractor ["bulk_email.py"] = ExtractorChoice.scanPair 4
    ∧ (∀ env : BEnv, bulkMain { env with argv := "--sheet4" :: env.argv } = bulkMain env) := by
  refine ⟨by decide, rfl, rfl, ?_⟩
  intro env
  rcases env with ⟨argv, ap, re, ex, rows, ca, lo, so⟩
  have h : test_mode_flag ("--sheet4" :: argv) = test_mode_flag argv := by
    simp [test_mode_flag, List.contains_cons]
  simp only [bulkMain, h]

/-- C2 counterexample: with the LLM key absent and all pages reachable, the
single-recipient script performs all three page fetches before exiting with
code 1 — network activity does happen before the missing-secret exit,
refuting the claim as stated. -/
theorem claim_C2_counterexample :
    (sendEmailMain c2Env).exitCode = 1
    ∧ SEv.fetch "https://unravel.tech" true ∈ (sendEmailMain c2Env).events := by
  decide

/-- C2 (amended): the bulk script exits 1 with a descriptive error and no
events at all when its SMTP password is absent; the single-recipient script
exits 1 when the LLM key is absent, before any LLM call or SMTP activity but
after the page fetches; and when its SMTP password is absent it never opens
an SMTP connection or sends, exiting 1 unless the operator had already
cancelled (exit 0). -/
theorem claim_C2 :
    (∀ env : BEnv, env.appPassword = none →
      bulkMain env = ⟨[], 1, ["Error: GMAIL_APP_PASSWORD not set in .env"]⟩)
    ∧ (∀ env : SEnv, env.groqKey = none →
        (sendEmailMain env).exitCode = 1
        ∧ SEv.llmCall ∉ (sendEmailMain env).events
        ∧ SEv.smtpConnect ∉ (sendEmailMain env).events
        ∧ (sendEmailMain env).errs ≠ [])
    ∧ (∀ env : SEnv, env.gmailPass = none →
        SEv.smtpConnect ∉ (sendEmailMain env).events
        ∧ SEv.sendMsg ∉ (sendEmailMain env).events
        ∧ ((sendEmailMain env).exitCode = 1 ∨
            (pyStripLower env.confirmAnswer ≠ "y" ∧ (sendEmailMain env).exitCode = 0))) := by
  refine ⟨?_, ?_, ?_⟩
  · intro env h
    rcases env with ⟨argv, ap, re, ex, rows, ca, lo, so⟩
    cases h
    rfl
  · intro env h
    rcases env with ⟨gk, gp, re, f, llm, ca, sm⟩
    cases h
    cases hany : UNRAVEL_URLS.any f <;>
      simp [sendEmailMain, scrape_unravel_profiles, extract_founder_info, hany, List.mem_map]
  · intro env h
    rcases env with ⟨gk, gp, re, f, llm, ca, sm⟩
    cases h
    cases hany : UNRAVEL_URLS.any f with
    | false =>
        simp [sendEmailMain, scrape_unravel_profiles, hany, List.mem_map]
    | true =>
        cases gk with
        | none =>
            simp [sendEmailMain, scrape_unravel_profiles, extract_founder_info,
              hany, List.mem_map]
        | some k =>
            cases llm with
            | apiError =>
                simp [sendEmailMain, scrape_unravel_profiles, extract_founder_info,
                  hany, List.mem_map]
            | emptyContent =>
                simp [sendEmailMain, scrape_unravel_profiles, extract_founder_info,
                  hany, List.mem_map]
            | malformed =>
                simp [sendEmailMain, scrape_unravel_profiles, extract_founder_info,
                  hany, List.mem_map]
            | parsed j =>
                cases j with
                | obj fields =>
                    by_cases ht : (!pyTruthyJson ((Json.obj fields).lookup "founder_name")
                        || !pyTruthyJson ((Json.obj fields).lookup "email")) = true
                    · simp [sendEmailMain, scrape_unravel_profiles, extract_founder_info,
                        hany, List.mem_map, ht]
                    · by_cases hc : pyStripLower ca = "y"
                      · simp [sendEmailMain, scrape_unravel_profiles, extract_founder_info,
                          send_application_email, hany, List.mem_map, ht, hc]
                      · simp [sendEmailMain, scrape_unravel_profiles, extract_founder_info,
                          hany, List.mem_map, ht, hc]
                | null =>
                    simp [sendEmailMain, scrape_unravel_profiles, extract_founder_info,
                      hany, List.mem_map]
                | bool b =>
                    simp [sendEmailMain, scrape_unravel_profiles, extract_founder_info,
                      hany, List.mem_map]
                | num n =>
                    simp [sendEmailMain, scrape_unravel_profiles, extract_founder_info,
                      hany, List.mem_map]
                | str s2 =>
                    simp [sendEmailMain, scrape_unravel_profiles, extract_founder_info,
                      hany, List.mem_map]
                | arr xs =>
                    simp [sendEmailMain, scrape_unravel_profiles, extract_founder_info,
                      hany, List.mem_map]

/-- Witness for C2: the bulk conjunct applied at a concrete environment. -/
theorem claim_C2_witness :
    bulkMain ⟨[], none, true, true, [], "y", true, fun _ => true⟩ =
      ⟨[], 1, ["Error: GMAIL_APP_PASSWORD not set in .env"]⟩ :=
  claim_C2.1 ⟨[], none, true, true, [], "y", true, fun _ => true⟩ rfl

/-- C8: when the LLM response parses to `{"founder_name": null, "email":
null}` the extractor returns the object to the caller with both fields
falsy, and the driver exits with code 1 without ever opening an SMTP
connection or sending; more generally any parsed object whose
`founder_name` field is falsy does so. -/
theorem claim_C8 :
    (∀ k, extract_founder_info (some k) (LLMResp.parsed nullFounder) =
      ([SEv.llmCall], Except.ok nullFounder))
    ∧ pyTruthyJson (nullFounder.lookup "founder_name") = false
    ∧ pyTruthyJson (nullFounder.lookup "email") = false
    ∧ (∀ (env : SEnv) (fields : List (String × Json)),
        env.llm = LLMResp.parsed (Json.obj fields) →
        pyTruthyJson ((Json.obj fields).lookup "founder_name") = false →
        (sendEmailMain env).exitCode = 1
        ∧ SEv.smtpConnect ∉ (sendEmailMain env).events
        ∧ SEv.sendMsg ∉ (sendEmailMain env).events) := by
  refine ⟨fun k => rfl, by decide, by decide, ?_⟩
  intro env fields hllm ht
  rcases env with ⟨gk, gp, re, f, llm, ca, sm⟩
  subst hllm
  cases hany : UNRAVEL_URLS.any f with
  | false =>
      simp [sendEmailMain, scrape_unravel_profiles, hany, List.mem_map]
  | true =>
      cases gk with
      | none =>
          simp [sendEmailMain, scrape_unravel_profiles, extract_founder_info, hany,
            List.mem_map]
      | some k =>
          have hcond : (!pyTruthyJson ((Json.obj fields).lookup "founder_name")
              || !pyTruthyJson ((Json.obj fields).lookup "email")) = true := by
            rw [ht]
            rfl
          simp [sendEmailMain, scrape_unravel_profiles, extract_founder_info, hany,
            hcond, List.mem_map]

/-- Witness for C8: the driver conjunct at the concrete null-null parse. -/
theorem claim_C8_witness :
    (sendEmailMain c8Env).exitCode = 1
    ∧ SEv.smtpConnect ∉ (sendEmailMain c8Env).events
    ∧ SEv.sendMsg ∉ (sendEmailMain c8Env).events :=
  claim_C8.2.2.2 c8Env [("founder_name", Json.null), ("email", Json.null)] rfl (by decide)

/-- C9 counterexample: a confirmed test-mode bulk run whose single send
fails still exits with code 0 (the failure is only reported), refuting the
claim that a failed test-mode send yields exit code 1. -/
theorem claim_C9_counterexample :
    (bulkMain c9Env).exitCode = 0
    ∧ BEv.attempt "nileshcodes04@gmail.com" false ∈ (bulkMain c9Env).events := by
  decide

/-- C9 (amended): exit code 0 on success or operator cancellation and exit
code 1 on validation failures and fatal errors (missing secret, missing
resume, missing spreadsheet, failed login, unfetchable site, missing key,
unparseable LLM output, SMTP failure) — except that a failed send in the
test mode of the bulk script is merely reported and the process still exits 0. -/
theorem claim_C9 :
    (∀ env : BEnv, env.appPassword = none → (bulkMain env).exitCode = 1)
    ∧ (∀ (env : BEnv) p, env.appPassword = some p → env.resumeExists = false →
        (bulkMain env).exitCode = 1)
    ∧ (∀ (env : BEnv) p, env.appPassword = some p → env.resumeExists = true →
        (test_mode_flag env.argv = true ∨ env.excelExists = true) →
        pyStripLower env.confirmAnswer ≠ "y" → (bulkMain env).exitCode = 0)
    ∧ (∀ (env : BEnv) p, env.appPassword = some p → env.resumeExists = true →
        test_mode_flag env.argv = false → env.excelExists = false →
        (bulkMain env).exitCode = 1)
    ∧ (∀ (env : BEnv) p, env.appPassword = some p → env.resumeExists = true →
        (test_mode_flag env.argv = true ∨ env.excelExists = true) →
        pyStripLower env.confirmAnswer = "y" → env.loginOk = false →
        (bulkMain env).exitCode = 1)
    ∧ (∀ (env : BEnv) p, env.appPassword = some p → env.resumeExists = true →
        (test_mode_flag env.argv = true ∨ env.excelExists = true) →
        pyStripLower env.confirmAnswer = "y" → env.loginOk = true →
        (bulkMain env).exitCode = 0)
    ∧ (∀ env : SEnv, env.groqKey = none → (sendEmailMain env).exitCode = 1)
    ∧ (∀ env : SEnv, env.llm = LLMResp.malformed → (sendEmailMain env).exitCode = 1)
    ∧ (∀ (env : SEnv) k (fields : List (String × Json)), env.groqKey = some k →
        UNRAVEL_URLS.any env.fetchOk = true →
        env.llm = LLMResp.parsed (Json.obj fields) →
        pyTruthyJson ((Json.obj fields).lookup "founder_name") = true →
        pyTruthyJson ((Json.obj fields).lookup "email") = true →
        pyStripLower env.confirmAnswer ≠ "y" → (sendEmailMain env).exitCode = 0)
    ∧ (∀ (env : SEnv) k q (fields : List (String × Json)), env.groqKey = some k →
        UNRAVEL_URLS.any env.fetchOk = true →
        env.llm = LLMResp.parsed (Json.obj fields) →
        pyTruthyJson ((Json.obj fields).lookup "founder_name") = true →
        pyTruthyJson ((Json.obj fields).lookup "email") = true →
        pyStripLower env.confirmAnswer = "y" → env.gmailPass = some q →
        env.resumeExists = true → env.smtp = SmtpOutcome.ok →
        (sendEmailMain env).exitCode = 0)
    ∧ (∀ (env : SEnv) k q (fields : List (String × Json)), env.groqKey = some k →
        UNRAVEL_URLS.any env.fetchOk = true →
        env.llm = LLMResp.parsed (Json.obj fields) →
        pyTruthyJson ((Json.obj fields).lookup "founder_name") = true →
        pyTruthyJson ((Json.obj fields).lookup "email") = true →
        pyStripLower env.confirmAnswer = "y" → env.gmailPass = some q →
        env.resumeExists = true → env.smtp = SmtpOutcome.authError →
        (sendEmailMain env).exitCode = 1) := by
  refine ⟨?_, ?_, ?_, ?_, ?_, ?_, ?_, ?_, ?_, ?_, ?_⟩
  · intro env h
    rcases env with ⟨argv, ap, re, ex, rows, ca, lo, so⟩
    cases h
    rfl
  · intro env p hp hre
    rcases env with ⟨argv, ap, re, ex, rows, ca, lo, so⟩
    cases hp
    subst hre
    rfl
  · intro env p hp hre hor hc
    rcases env with ⟨argv, ap, re, ex, rows, ca, lo, so⟩
    cases hp
    subst hre
    by_cases htest : test_mode_flag argv = true
    · simp [bulkMain, htest, hc]
    · have hex : ex = true := by
        rcases hor with h | h
        · exact absurd h htest
        · exact h
      subst hex
      simp [bulkMain, htest, hc]
  · intro env p hp hre htest hex
    rcases env with ⟨argv, ap, re, ex, rows, ca, lo, so⟩
    cases hp
    subst hre
    subst hex
    simp [bulkMain, htest]
  · intro env p hp hre hor hc hlo
    rcases env with ⟨argv, ap, re, ex, rows, ca, lo, so⟩
    cases hp
    subst hre
    subst hlo
    by_cases htest : test_mode_flag argv = true
    · simp [bulkMain, htest, hc]
    · have hex : ex = true := by
        rcases hor with h | h
        · exact absurd h htest
        · exact h
      subst hex
      simp [bulkMain, htest, hc]
  · intro env p hp hre hor hc hlo
    rcases env with ⟨argv, ap, re, ex, rows, ca, lo, so⟩
    cases hp
    subst hre
    subst hlo
    by_cases htest : test_mode_flag argv = true
    · simp [bulkMain, htest, hc]
    · have hex : ex = true := by
        rcases hor with h | h
        · exact absurd h htest
        · exact h
      subst hex
      simp [bulkMain, htest, hc]
  · intro env h
    rcases env with ⟨gk, gp, re, f, llm, ca, sm⟩
    cases h
    cases hany : UNRAVEL_URLS.any f <;>
      simp [sendEmailMain, scrape_unravel_profiles, extract_founder_info, hany]
  · intro env h
    rcases env with ⟨gk, gp, re, f, llm, ca, sm⟩
    subst h
    cases hany : UNRAVEL_URLS.any f with
    | false => simp [sendEmailMain, scrape_unravel_profiles, hany]
    | true =>
        cases gk <;>
          simp [sendEmailMain, scrape_unravel_profiles, extract_founder_info, hany]
  · intro env k fields hk hany hllm ht1 ht2 hc
    rcases env with ⟨gk, gp, re, f, llm, ca, sm⟩
    cases hk
    subst hllm
    have hcond : (!pyTruthyJson ((Json.obj fields).lookup "founder_name")
        || !pyTruthyJson ((Json.obj fields).lookup "email")) = false := by
      rw [ht1, ht2]
      rfl
    simp only at hany
    simp [sendEmailMain, scrape_unravel_profiles, extract_founder_info, hany, hcond, hc]
  · intro env k q fields hk hany hllm ht1 ht2 hc hq hre hsm
    rcases env with ⟨gk, gp, re, f, llm, ca, sm⟩
    cases hk
    cases hq
    subst hllm
    subst hre
    subst hsm
    have hcond : (!pyTruthyJson ((Json.obj fields).lookup "founder_name")
        || !pyTruthyJson ((Json.obj fields).lookup "email")) = false := by
      rw [ht1, ht2]
      rfl
    simp only at hany
    simp [sendEmailMain, scrape_unravel_profiles, extract_founder_info,
      send_application_email, hany, hcond, hc]
  · intro env k q fields hk hany hllm ht1 ht2 hc hq hre hsm
    rcases env with ⟨gk, gp, re, f, llm, ca, sm⟩
    cases hk
    cases hq
    subst hllm
    subst hre
    subst hsm
    have hcond : (!pyTruthyJson ((Json.obj fields).lookup "founder_name")
        || !pyTruthyJson ((Json.obj fields).lookup "email")) = false := by
      rw [ht1, ht2]
      rfl
    simp only at hany
    simp [sendEmailMain, scrape_unravel_profiles, extract_founder_info,
      send_application_email, hany, hcond, hc]

/-- Witness for C9: bulk cancellation exits 0 at a concrete environment. -/
theorem claim_C9_witness :
    (bulkMain ⟨[], some "pw", true, true, [], "n", true, fun _ => true⟩).exitCode = 0 :=
  claim_C9.2.2.1 ⟨[], some "pw", true, true, [], "n", true, fun _ => true⟩ "pw" rfl rfl
    (Or.inr rfl) (by decide)

end Unravel
